import Mathlib

/-!
Shallow embedding of the `pickup_points` Django backend (partners registry and
notification dispatch), with theorems checking the natural-language
specification against the code.

Conventions of the embedding:
* Django model instances become Lean structures; the database becomes explicit
  lists of stored rows threaded through the service functions.
* Python truthiness of optional strings / primary keys is modelled explicitly
  (`optStrTruthy`, `optPkTruthy`).
* `ValidationError(errors_dict)` becomes `Except Errors α` with
  `Errors = List (String × List String)` (key, messages).
* `transaction.atomic` blocks become all-or-nothing state transformers: an
  `Except.error` result carries no new state, and the `*State` runner keeps the
  caller state on error, which is exactly the rollback semantics.
* The outcome of a raw DB save under concurrency is nondeterministic relative
  to the application-level checks, so `create_partner_core` abstracts the save
  outcome as a parameter; the deterministic sequential instance is
  `create_partner`.
-/

/-- Python truthiness of an optional string field (None and "" are falsy). -/
def optStrTruthy : Option String → Bool
  | none => false
  | some s => s != ""

/-- Python truthiness of an optional integer primary key (None and 0 are falsy). -/
def optPkTruthy : Option Nat → Bool
  | none => false
  | some k => k != 0

/-- Errors dictionary of a Django/DRF ValidationError: key with messages. -/
abbrev Errors := List (String × List String)

/-- Does the errors dictionary contain the given key. -/
def hasKey (es : Errors) (k : String) : Bool :=
  es.any (fun e => e.fst == k)

/-- Does the character list start with the given needle. -/
def listStartsWith : List Char → List Char → Bool
  | _, [] => true
  | [], _ :: _ => false
  | a :: as, b :: bs => a == b && listStartsWith as bs

/-- Does the character list contain the needle as a contiguous run. -/
def listContainsSub (needle : List Char) : List Char → Bool
  | [] => needle.isEmpty
  | c :: t => listStartsWith (c :: t) needle || listContainsSub needle t

/-- Substring test, Python's `needle in haystack`. -/
def strContains (haystack needle : String) : Bool :=
  listContainsSub needle.data haystack.data

/-- Python's `str.lower()` (characterwise lowering). -/
def strLower (s : String) : String :=
  String.mk (s.data.map Char.toLower)

/-- A request user as seen by `permissions.py` (an anonymous user is a `User`
value with `is_authenticated = false`; `none` models Python `None`). -/
structure User where
  id : Nat
  is_authenticated : Bool
  is_superuser : Bool
  is_staff : Bool
deriving DecidableEq

/-- `Partner` model row (`models/partner.py`): owner FK, contacts, legal ids,
validation flag.  `pk = none` models an unsaved instance. -/
structure Partner where
  pk : Option Nat
  owner : Nat
  name : String
  email : Option String
  phone : Option String
  inn : String
  ogrn : String
  kpp : Option String
  validated : Bool
deriving DecidableEq

/-- `Partner.clean` error dictionary (`models/partner.py` lines 84-118):
contact requirement, then application-level uniqueness of inn and ogrn against
the stored rows, excluding the instance's own pk when it is set. -/
def Partner.cleanErrors (stored : List Partner) (p : Partner) : Errors :=
  let contactErrs : Errors :=
    if !(optStrTruthy p.email) && !(optStrTruthy p.phone) then
      [(("email"), [("Укажите email или телефон")])]
    else []
  let innErrs : Errors :=
    if p.inn != "" &&
        !((stored.filter (fun q => q.inn == p.inn &&
            (if optPkTruthy p.pk then !(q.pk == p.pk) else true))).isEmpty) then
      [(("inn"), [("Партнер с таким ИНН уже существует")])]
    else []
  let ogrnErrs : Errors :=
    if p.ogrn != "" &&
        !((stored.filter (fun q => q.ogrn == p.ogrn &&
            (if optPkTruthy p.pk then !(q.pk == p.pk) else true))).isEmpty) then
      [(("ogrn"), [("Партнер с таким ОГРН уже существует")])]
    else []
  contactErrs ++ innErrs ++ ogrnErrs

/-- `Partner.clean`: raises `ValidationError(errors)` when the dictionary is
non-empty. -/
def Partner.clean (stored : List Partner) (p : Partner) : Except Errors Unit :=
  let es := Partner.cleanErrors stored p
  if es.isEmpty then Except.ok () else Except.error es

/-- Q expression built by `get_partner_filter_for_user`. -/
inductive PartnerQ
  | pkIn (l : List Nat)
  | ownerEq (uid : Nat)
deriving DecidableEq

/-- Evaluation of a partner Q filter on one row. -/
def PartnerQ.matches : PartnerQ → Partner → Bool
  | .pkIn l, p =>
      match p.pk with
      | none => false
      | some k => l.contains k
  | .ownerEq uid, p => p.owner == uid

/-- `get_partner_filter_for_user` (`permissions.py` lines 43-58):
`Q(pk__in=[])` for None/unauthenticated, `None` for a superuser,
`Q(owner=user)` otherwise. -/
def get_partner_filter_for_user : Option User → Option PartnerQ
  | none => some (PartnerQ.pkIn [])
  | some u =>
      if !u.is_authenticated then some (PartnerQ.pkIn [])
      else if u.is_superuser then none
      else some (PartnerQ.ownerEq u.id)

/-- `Partner.objects.for_user(user)` (`models/partner.py` lines 24-33):
no filtering for `none` (superuser), otherwise filter by the Q expression. -/
def partnersForUser (stored : List Partner) (user : Option User) : List Partner :=
  match get_partner_filter_for_user user with
  | none => stored
  | some q => stored.filter (fun p => q.matches p)

/-- `check_partner_access` (`permissions.py` lines 61-71). -/
def check_partner_access (user : Option User) (partner : Partner) : Bool :=
  match user with
  | none => false
  | some u =>
      if !u.is_authenticated then false
      else if u.is_superuser then true
      else partner.owner == u.id

/-- `PartnerMember` model row (`models/partner_member.py`): FK ids, role and
permission flags.  `partner` is the FK id of the partner row. -/
structure PartnerMember where
  pk : Option Nat
  partner : Nat
  user : Option Nat
  name : String
  employee_id : Option String
  work_email : Option String
  work_phone : Option String
  role : String
  can_manage_members : Bool
  can_view_finance : Bool
  is_active : Bool
deriving DecidableEq

/-- Resolve a partner FK id to its stored row (SQL join on `partner__...`). -/
def lookupPartner (partners : List Partner) (pid : Nat) : Option Partner :=
  partners.find? (fun p => p.pk == some pid)

/-- Q expression built by `get_partner_member_filter_for_user`. -/
inductive MemberQ
  | pkIn (l : List Nat)
  | partnerOwnerEq (uid : Nat)
  | userEq (uid : Nat)
  | partnerEq (pid : Nat)
  | qor (a b : MemberQ)
deriving DecidableEq

/-- Evaluation of a member Q filter on one row (`partner__owner` joins through
the stored partner rows). -/
def MemberQ.matches (partners : List Partner) : MemberQ → PartnerMember → Bool
  | .pkIn l, m =>
      match m.pk with
      | none => false
      | some k => l.contains k
  | .partnerOwnerEq uid, m =>
      match lookupPartner partners m.partner with
      | some p => p.owner == uid
      | none => false
  | .userEq uid, m => m.user == some uid
  | .partnerEq pid, m => m.partner == pid
  | .qor a b, m => a.matches partners m || b.matches partners m

/-- `get_partner_member_filter_for_user` (`permissions.py` lines 75-106):
base condition `Q(partner__owner=user) | Q(user=user)`, then one
`| Q(partner=membership.partner)` per active managing membership of the user. -/
def get_partner_member_filter_for_user (members : List PartnerMember)
    (user : Option User) : Option MemberQ :=
  match user with
  | none => some (MemberQ.pkIn [])
  | some u =>
      if !u.is_authenticated then some (MemberQ.pkIn [])
      else if u.is_superuser then none
      else
        let base := MemberQ.qor (MemberQ.partnerOwnerEq u.id) (MemberQ.userEq u.id)
        let managing := members.filter
          (fun mm => mm.user == some u.id && mm.can_manage_members && mm.is_active)
        some (managing.foldl (fun q mm => MemberQ.qor q (MemberQ.partnerEq mm.partner)) base)

/-- `PartnerMember.objects.for_user(user)` (`models/partner_member.py` 17-26). -/
def membersForUser (partners : List Partner) (members : List PartnerMember)
    (user : Option User) : List PartnerMember :=
  match get_partner_member_filter_for_user members user with
  | none => members
  | some q => members.filter (fun m => q.matches partners m)

/-- `PartnerMember.clean` (`models/partner_member.py` lines 190-224): returns
the possibly-mutated instance (director/admin roles are granted both
permission flags before the error check) together with the error dictionary;
a non-empty dictionary means the method raises after mutating. -/
def PartnerMember.cleanWith (partnerObj : Partner) (m : PartnerMember) :
    PartnerMember × Errors :=
  let nameErrs : Errors :=
    if m.name == "" && m.user == none then
      [(("name"), [("Заполните имя или привяжите пользователя")])]
    else []
  let contactErrs : Errors :=
    if !(optStrTruthy m.work_email) && !(optStrTruthy m.work_phone) then
      [(("work_email"), [("Укажите рабочий email или телефон")])]
    else []
  let ownerErrs : Errors :=
    if (match m.user with
        | some u => u == partnerObj.owner
        | none => false) &&
       !(m.role == "director" || m.role == "admin") then
      [(("user"), [("Владелец партнера не может быть его сотрудником")])]
    else []
  let m₁ :=
    if m.role == "director" || m.role == "admin" then
      { m with can_manage_members := true, can_view_finance := true }
    else m
  (m₁, nameErrs ++ contactErrs ++ ownerErrs)

/-- `PartnerApplication` model row (`models/partner_application.py`). -/
structure PartnerApplication where
  pk : Option Nat
  user : Nat
  company_name : String
  inn : String
  ogrn : String
  contact_email : String
  contact_phone : String
  status : String
  processed_by : Option Nat
  processed_at : Option Nat
  rejection_reason : Option String
  partner : Option Nat
deriving DecidableEq

/-- `PartnerApplication.approve` (`models/partner_application.py` 105-112):
raises `ValueError` unless the status is pending, otherwise marks approved. -/
def PartnerApplication.approve (app : PartnerApplication) (admin_user : Nat) :
    Except String PartnerApplication :=
  if app.status != "pending" then Except.error ("Заявка уже обработана.")
  else Except.ok { app with status := ("approved"), processed_by := some admin_user }

/-- `PartnerApplication.reject` (`models/partner_application.py` 114-122). -/
def PartnerApplication.reject (app : PartnerApplication) (admin_user : Nat)
    (reason : String) : Except String PartnerApplication :=
  if app.status != "pending" then Except.error ("Заявка уже обработана.")
  else Except.ok { app with status := ("rejected"), processed_by := some admin_user,
                            rejection_reason := some reason }

/-- Stored database state threaded through the service layer. -/
structure DB where
  partners : List Partner
  members : List PartnerMember
  applications : List PartnerApplication
  next_partner_pk : Nat
  next_member_pk : Nat
deriving DecidableEq

/-- Pk freshness of the stored rows (auto-increment counters dominate every
stored primary key). -/
def DB.wfb (db : DB) : Bool :=
  db.partners.all (fun q =>
    match q.pk with
    | none => true
    | some k => k < db.next_partner_pk) &&
  db.members.all (fun q =>
    match q.pk with
    | none => true
    | some k => k < db.next_member_pk)

/-- `instance.save()` on an already-stored application row: replace the rows
with the same pk. -/
def storeApplication (apps : List PartnerApplication) (a : PartnerApplication) :
    List PartnerApplication :=
  apps.map (fun b => if b.pk == a.pk then a else b)

/-- `update_application_status` (`services/partner_service.py` 88-113):
unconditionally writes the given status, the processing timestamp and the
processing admin, plus the rejection reason when truthy, and saves. -/
def update_application_status (db : DB) (application : PartnerApplication)
    (status : String) (processed_by : Nat) (rejection_reason : Option String)
    (now : Nat) : DB × PartnerApplication :=
  let a₁ := { application with status := status, processed_at := some now,
                               processed_by := some processed_by }
  let a₂ :=
    if optStrTruthy rejection_reason then { a₁ with rejection_reason := rejection_reason }
    else a₁
  ({ db with applications := storeApplication db.applications a₂ }, a₂)

/-- `validate_inn` (`validators/field_validators.py`): empty value passes,
otherwise require all digits and length 10 or 12. -/
def validate_inn (value : String) : Option String :=
  if value == "" then none
  else if value.data.all (fun c => c.isDigit) && (value.length == 10 || value.length == 12)
    then none
  else some ("Некорректный ИНН")

/-- `validate_ogrn` (`validators/field_validators.py`): length 13 or 15. -/
def validate_ogrn (value : String) : Option String :=
  if value == "" then none
  else if value.data.all (fun c => c.isDigit) && (value.length == 13 || value.length == 15)
    then none
  else some ("Некорректный ОГРН")

/-- Writable serializer input of `PartnerSerializer` (owner/validated are
read-only). -/
structure PartnerData where
  name : String
  inn : String
  ogrn : String
  email : Option String
  phone : Option String
deriving DecidableEq

/-- Build the unsaved `Partner(**attrs)` instance used for validation/saving. -/
def partnerFromData (d : PartnerData) (owner : Nat) : Partner :=
  { pk := none, owner := owner, name := d.name, email := d.email, phone := d.phone,
    inn := d.inn, ogrn := d.ogrn, kpp := none, validated := false }

/-- DRF field-level validation of `PartnerSerializer` (the model field
validators `validate_inn` / `validate_ogrn`). -/
def partnerFieldErrors (d : PartnerData) : Errors :=
  (match validate_inn d.inn with
   | some m => [(("inn"), [m])]
   | none => []) ++
  (match validate_ogrn d.ogrn with
   | some m => [(("ogrn"), [m])]
   | none => [])

/-- `PartnerSerializer(data=...).is_valid()`: field validators, then the
object-level `validate` which delegates to `Partner.clean` on the unsaved
instance. -/
def partner_serializer_is_valid (stored : List Partner) (d : PartnerData) :
    Except Errors Unit :=
  let fe := partnerFieldErrors d
  if !fe.isEmpty then Except.error fe
  else Partner.clean stored (partnerFromData d 0)

/-- The transactional `serializer.save(owner=owner)`: insert the row unless a
DB unique constraint on inn or ogrn fires, in which case an `IntegrityError`
with the constraint's text is raised. -/
def partnerDbSave (db : DB) (d : PartnerData) (owner : Nat) :
    Except String (DB × Partner) :=
  if db.partners.any (fun q => q.inn == d.inn) then
    Except.error ("UNIQUE constraint failed: partners_partner.inn")
  else if db.partners.any (fun q => q.ogrn == d.ogrn) then
    Except.error ("UNIQUE constraint failed: partners_partner.ogrn")
  else
    let p := { partnerFromData d owner with pk := some db.next_partner_pk }
    Except.ok ({ db with partners := db.partners ++ [p],
                         next_partner_pk := db.next_partner_pk + 1 }, p)

/-- The `except IntegrityError` branch of `create_partner`
(`services/partner_service.py` 22-29): parse the exception text and raise a
DRF ValidationError. -/
def integrity_to_validation (exc : String) : Errors :=
  let low := strLower exc
  if strContains low ("unique") then
    if strContains low ("inn") then
      [(("inn"), [("partner_with_this_inn_already_exists")])]
    else if strContains low ("ogrn") then
      [(("ogrn"), [("partner_with_this_ogrn_already_exists")])]
    else [(("detail"), [("database_integrity_error")])]
  else [(("detail"), [("database_integrity_error")])]

/-- `create_partner` (`services/partner_service.py` 12-30) with the outcome of
the transactional save abstracted as a parameter (under concurrency the save
can fail even after a successful application-level check). -/
def create_partner_core (db : DB) (d : PartnerData)
    (save : Except String (DB × Partner)) : Except Errors (DB × Partner) :=
  match partner_serializer_is_valid db.partners d with
  | Except.error es => Except.error es
  | Except.ok _ =>
      match save with
      | Except.ok r => Except.ok r
      | Except.error exc => Except.error (integrity_to_validation exc)

/-- `create_partner`: the sequential instance, saving through `partnerDbSave`. -/
def create_partner (db : DB) (d : PartnerData) (owner : Nat) :
    Except Errors (DB × Partner) :=
  create_partner_core db d (partnerDbSave db d owner)

/-- Stored state after a `create_partner` call: the transaction rolls every
write back on error. -/
def create_partner_state (db : DB) (d : PartnerData) (owner : Nat) : DB :=
  match create_partner db d owner with
  | Except.ok (db₁, _) => db₁
  | Except.error _ => db

/-- `create_partner_from_application` (`services/partner_service.py` 32-50). -/
def create_partner_from_application (db : DB) (application : PartnerApplication) :
    Except Errors (DB × Partner) :=
  create_partner db
    { name := application.company_name, inn := application.inn,
      ogrn := application.ogrn, email := some application.contact_email,
      phone := some application.contact_phone }
    application.user

/-- `PartnerMemberSerializer(data=...).is_valid()`: the object-level `validate`
builds an unsaved instance and runs `PartnerMember.clean`, discarding the
mutation. -/
def member_serializer_is_valid (partnerObj : Partner) (m : PartnerMember) :
    Except Errors Unit :=
  let es := (PartnerMember.cleanWith partnerObj m).snd
  if es.isEmpty then Except.ok () else Except.error es

/-- Transactional member save: insert unless the conditional unique constraint
`unique_employee_per_partner` fires. -/
def memberDbSave (db : DB) (m : PartnerMember) : Except String (DB × PartnerMember) :=
  if (match m.employee_id with
      | some e => db.members.any (fun q => q.partner == m.partner && q.employee_id == some e)
      | none => false) then
    Except.error ("UNIQUE constraint failed: unique_employee_per_partner")
  else
    let m₁ := { m with pk := some db.next_member_pk }
    Except.ok ({ db with members := db.members ++ [m₁],
                         next_member_pk := db.next_member_pk + 1 }, m₁)

/-- The `member_data` dict built by `create_initial_partner_member`
(`services/partner_service.py` 64-71); `userName` stands for
`user.get_full_name() or user.username`. -/
def initialMemberData (partnerObj : Partner) (userId : Nat) (userName : String)
    (application : PartnerApplication) : PartnerMember :=
  { pk := none, partner := partnerObj.pk.getD 0, user := some userId,
    name := userName, employee_id := none,
    work_email := some application.contact_email,
    work_phone := some application.contact_phone,
    role := ("director"), can_manage_members := false,
    can_view_finance := false, is_active := true }

/-- `create_initial_partner_member` (`services/partner_service.py` 52-86):
serializer validation, transactional save, `full_clean()` applying the
role-based permission mutation, then a save of the two permission fields. -/
def create_initial_partner_member (db : DB) (partnerObj : Partner) (userId : Nat)
    (userName : String) (application : PartnerApplication) :
    Except Errors (DB × PartnerMember) :=
  let member_data : PartnerMember := initialMemberData partnerObj userId userName application
  match member_serializer_is_valid partnerObj member_data with
  | Except.error es => Except.error es
  | Except.ok _ =>
      match memberDbSave db member_data with
      | Except.error _ => Except.error [(("detail"), [("database_integrity_error")])]
      | Except.ok (db₁, saved) =>
          let cleaned := PartnerMember.cleanWith partnerObj saved
          if !cleaned.snd.isEmpty then Except.error cleaned.snd
          else
            let db₂ :=
              { db₁ with members := db₁.members.map (fun q =>
                  if q.pk == cleaned.fst.pk then
                    { q with can_manage_members := cleaned.fst.can_manage_members,
                             can_view_finance := cleaned.fst.can_view_finance }
                  else q) }
            Except.ok (db₂, cleaned.fst)

/-- `approve_partner_application` (`services/partner_service.py` 115-143):
one transaction wrapping the pending-status check, partner creation, initial
owner membership creation, status update, and application-to-partner link. -/
def approve_partner_application (db : DB) (application : PartnerApplication)
    (admin_user : Nat) (userName : String) (now : Nat) :
    Except Errors (DB × Partner × PartnerMember × PartnerApplication) :=
  if application.status != "pending" then
    Except.error [(("status"), [("Application must be in pending status")])]
  else
    match create_partner_from_application db application with
    | Except.error es => Except.error es
    | Except.ok (db₁, partner) =>
        match create_initial_partner_member db₁ partner application.user userName application with
        | Except.error es => Except.error es
        | Except.ok (db₂, owner_member) =>
            let upd := update_application_status db₂ application ("approved") admin_user none now
            let app₂ := { upd.snd with partner := partner.pk }
            let db₄ := { upd.fst with applications := storeApplication upd.fst.applications app₂ }
            Except.ok (db₄, partner, owner_member, app₂)

/-- Stored state after `approve_partner_application`: rollback on error. -/
def approve_application_state (db : DB) (application : PartnerApplication)
    (admin_user : Nat) (userName : String) (now : Nat) : DB :=
  match approve_partner_application db application admin_user userName now with
  | Except.ok (db₁, _, _, _) => db₁
  | Except.error _ => db

/-- `reject_partner_application` (`services/partner_service.py` 145-163). -/
def reject_partner_application (db : DB) (application : PartnerApplication)
    (admin_user : Nat) (reason : String) (now : Nat) :
    Except Errors (DB × PartnerApplication) :=
  if application.status != "pending" then
    Except.error [(("status"), [("Application must be in pending status")])]
  else
    Except.ok (update_application_status db application ("rejected") admin_user (some reason) now)

/-- `PickupPoint` model row (`models/pickup_point.py`); the related partner is
kept as the loaded object (`self.partner`), `none` when unset. -/
structure PickupPoint where
  pk : Option Nat
  partner : Option Partner
  name : String
  address : String
  work_schedule : String
  phone : Option String
  email : Option String
  is_active : Bool
deriving DecidableEq

/-- `PickupPoint.clean` error dictionary (`models/pickup_point.py` 118-163):
required fields, the partner-validated rule, and per-partner name uniqueness. -/
def PickupPoint.cleanErrors (stored : List PickupPoint) (pp : PickupPoint) : Errors :=
  let nameErrs : Errors :=
    if pp.name == "" then [(("name"), [("Укажите наименование ПВЗ")])] else []
  let addressErrs : Errors :=
    if pp.address == "" then [(("address"), [("Укажите адрес ПВЗ")])] else []
  let scheduleErrs : Errors :=
    if pp.work_schedule == "" then
      [(("work_schedule"), [("Укажите график работы ПВЗ")])]
    else []
  let partnerErrs : Errors :=
    match pp.partner with
    | some p =>
        if !p.validated then
          [(("partner"), [("Нельзя создавать ПВЗ для партнера, который не прошёл проверку")])]
        else []
    | none => []
  let uniqueErrs : Errors :=
    if pp.name != "" && optPkTruthy (pp.partner.bind (fun p => p.pk)) &&
        !((stored.filter (fun q =>
            q.partner.bind (fun p => p.pk) == pp.partner.bind (fun p => p.pk) &&
            q.name == pp.name &&
            (if optPkTruthy pp.pk then !(q.pk == pp.pk) else true))).isEmpty) then
      [(("name"), [("ПВЗ с таким наименованием уже существует для этого партнера")])]
    else []
  nameErrs ++ addressErrs ++ scheduleErrs ++ partnerErrs ++ uniqueErrs

/-- `PickupPoint.clean`: raises when the dictionary is non-empty. -/
def PickupPoint.clean (stored : List PickupPoint) (pp : PickupPoint) :
    Except Errors Unit :=
  let es := PickupPoint.cleanErrors stored pp
  if es.isEmpty then Except.ok () else Except.error es

/-- `validate_partner_pickup_point_access` (`permissions.py` 272-285):
partner access check, then the partner's validated flag. -/
def validate_partner_pickup_point_access (user : Option User) (partner : Partner) : Bool :=
  if !(check_partner_access user partner) then false
  else if !partner.validated then false
  else true

/-- `TelegramConfig` row (`models/telegram_config.py`). -/
structure TelegramConfig where
  partner : Nat
  bot_token : String
  chat_id : String
  is_active : Bool
deriving DecidableEq

/-- `Notification` row (`models/notification.py`), as created and mutated by
`NotificationService.send_to_partner`. -/
structure Notification where
  partner_id : Nat
  channel : String
  subject : String
  message : String
  status : String
  sent_at : Option Nat
  error_message : Option String
deriving DecidableEq

/-- Environment of one `send_to_partner` call: stored configs and partners,
the global `TELEGRAM_BOT_TOKEN` setting, the boolean outcome of the underlying
`service.send` (both `TelegramService.send` and `EmailService.send` wrap their
bodies in a catch-all and return a boolean, so the send itself never raises),
and the clock. -/
structure NotifyEnv where
  telegram_configs : List TelegramConfig
  partners : List Partner
  settings_token : String
  send_result : Bool
  now : Nat
deriving DecidableEq

/-- Tail of `send_to_partner` once a service and recipient were obtained:
run `service.send`, then record sent/failed. -/
def finishSend (n : Notification) (env : NotifyEnv) (channel : String) : Notification :=
  if env.send_result then { n with status := ("sent"), sent_at := some env.now }
  else { n with status := ("failed"), sent_at := none,
                error_message := some (("Ошибка отправки через ") ++ channel) }

/-- `NotificationService.send_to_partner`
(`services/notification_service.py` 16-61): create a pending notification,
resolve the channel (telegram config lookup / partner email lookup /
unsupported channel), send, and record the outcome; every exception is caught
and stored on the failed notification. -/
def send_to_partner (env : NotifyEnv) (partner_id : Nat)
    (channel subject message : String) : Notification :=
  let n : Notification :=
    { partner_id := partner_id, channel := channel, subject := subject,
      message := message, status := ("pending"), sent_at := none,
      error_message := none }
  if channel == "telegram" then
    match env.telegram_configs.filter (fun c => c.partner == partner_id && c.is_active) with
    | [] =>
        { n with status := ("failed"),
                 error_message := some ("Телеграм конфигурация не найдена") }
    | [config] =>
        let token := if config.bot_token != "" then config.bot_token else env.settings_token
        if token == "" then
          { n with status := ("failed"),
                   error_message := some ("Необходим токен для инициализации TelegramService") }
        else finishSend n env channel
    | _ =>
        { n with status := ("failed"),
                 error_message := some ("get() returned more than one TelegramConfig") }
  else if channel == "email" then
    match env.partners.find? (fun p => p.pk == some partner_id) with
    | none =>
        { n with status := ("failed"),
                 error_message := some ("Partner matching query does not exist.") }
    | some _ => finishSend n env channel
  else
    { n with status := ("failed"),
             error_message := some (("Неподдерживаемый канал: ") ++ channel) }

/-! ## Helper lemmas -/

lemma hasKey_append (a b : Errors) (k : String) :
    hasKey (a ++ b) k = (hasKey a k || hasKey b k) := by
  simp [hasKey, List.any_append]

lemma hasKey_nil (k : String) : hasKey [] k = false := rfl

lemma hasKey_ne_nil {es : Errors} {k : String} (h : hasKey es k = true) : es ≠ [] := by
  intro hnil
  rw [hnil] at h
  exact Bool.false_ne_true h

lemma filter_not_isEmpty_iff {α : Type} (f : α → Bool) (l : List α) :
    (!(l.filter f).isEmpty) = true ↔ ∃ a ∈ l, f a = true := by
  rw [Bool.not_eq_true', List.isEmpty_eq_false_iff_exists_mem]
  simp [List.mem_filter]

lemma partnerQ_pkIn_nil_matches (p : Partner) :
    PartnerQ.matches (PartnerQ.pkIn []) p = false := by
  cases hp : p.pk <;> simp [PartnerQ.matches, hp]

lemma memberQ_pkIn_nil_matches (partners : List Partner) (m : PartnerMember) :
    MemberQ.matches partners (MemberQ.pkIn []) m = false := by
  cases hp : m.pk <;> simp [MemberQ.matches, hp]

/-! ## Claim C3 -/

/-- Claim C3: `get_partner_filter_for_user` returns `Q(pk__in=[])` for a None
or unauthenticated user, `None` for an (authenticated) superuser and
`Q(owner=user)` otherwise, so `Partner.objects.for_user` returns nothing, all
partners, or exactly the user's owned partners respectively. -/
theorem partner_filter_for_user_spec (stored : List Partner) (u : User) :
    (get_partner_filter_for_user none = some (PartnerQ.pkIn []) ∧
      partnersForUser stored none = []) ∧
    (u.is_authenticated = false →
      get_partner_filter_for_user (some u) = some (PartnerQ.pkIn []) ∧
      partnersForUser stored (some u) = []) ∧
    (u.is_authenticated = true → u.is_superuser = true →
      get_partner_filter_for_user (some u) = none ∧
      partnersForUser stored (some u) = stored) ∧
    (u.is_authenticated = true → u.is_superuser = false →
      get_partner_filter_for_user (some u) = some (PartnerQ.ownerEq u.id) ∧
      ∀ p, p ∈ partnersForUser stored (some u) ↔ p ∈ stored ∧ p.owner = u.id) := by
  refine ⟨⟨rfl, ?_⟩, fun ha => ⟨?_, ?_⟩, fun ha hs => ⟨?_, ?_⟩, fun ha hs => ⟨?_, ?_⟩⟩
  · simp [partnersForUser, get_partner_filter_for_user, List.filter_eq_nil_iff,
      partnerQ_pkIn_nil_matches]
  · simp [get_partner_filter_for_user, ha]
  · simp [partnersForUser, get_partner_filter_for_user, ha, List.filter_eq_nil_iff,
      partnerQ_pkIn_nil_matches]
  · simp [get_partner_filter_for_user, ha, hs]
  · simp [partnersForUser, get_partner_filter_for_user, ha, hs]
  · simp [get_partner_filter_for_user, ha, hs]
  · intro p
    simp [partnersForUser, get_partner_filter_for_user, ha, hs, List.mem_filter,
      PartnerQ.matches]

def pW : Partner :=
  { pk := some 1, owner := 5, name := ("P"), email := none, phone := some ("+7"),
    inn := ("7700000000"), ogrn := ("1027700000000"), kpp := none, validated := true }

def superW : User := { id := 9, is_authenticated := true, is_superuser := true, is_staff := true }

def anonW : User := { id := 0, is_authenticated := false, is_superuser := false, is_staff := false }

/-- Claim C3 witness: a concrete superuser sees the stored partner, a concrete
anonymous user sees nothing. -/
theorem partner_filter_for_user_spec_witness :
    partnersForUser [pW] (some superW) = [pW] ∧
    partnersForUser [pW] (some anonW) = [] :=
  ⟨((partner_filter_for_user_spec [pW] superW).2.2.1 rfl rfl).2,
   ((partner_filter_for_user_spec [pW] anonW).2.1 rfl).2⟩

/-! ## Claim C8 -/

/-- Claim C8: `Partner.clean` reports the key `email` exactly when neither the
email nor the phone contact field is set (Python-truthy). -/
theorem partner_clean_contact_requirement (stored : List Partner) (p : Partner) :
    hasKey (Partner.cleanErrors stored p) ("email") = true ↔
      (optStrTruthy p.email = false ∧ optStrTruthy p.phone = false) := by
  unfold Partner.cleanErrors
  rw [hasKey_append, hasKey_append]
  constructor
  · intro h
    rcases Bool.or_eq_true_iff.mp h with h₁ | h₂
    · rcases Bool.or_eq_true_iff.mp h₁ with hc | hi
      · by_cases he : optStrTruthy p.email
        · simp [he, hasKey] at hc
        · by_cases hph : optStrTruthy p.phone
          · simp [he, hph, hasKey] at hc
          · exact ⟨Bool.eq_false_iff.mpr he, Bool.eq_false_iff.mpr hph⟩
      · split at hi <;> simp [hasKey] at hi
    · split at h₂ <;> simp [hasKey] at h₂
  · intro ⟨he, hp⟩
    simp [he, hp, hasKey]

/-! ## Claim C9 -/

/-- Claim C9: whenever `PartnerMember.clean` runs on a member whose role is
director or admin, it sets both `can_manage_members` and `can_view_finance` to
true regardless of their input values. -/
theorem member_clean_grants_admin_permissions (po : Partner) (m : PartnerMember)
    (h : m.role = "director" ∨ m.role = "admin") :
    (PartnerMember.cleanWith po m).fst.can_manage_members = true ∧
    (PartnerMember.cleanWith po m).fst.can_view_finance = true := by
  have hb : (m.role == "director" || m.role == "admin") = true := by
    rcases h with h | h <;> simp [h]
  simp [PartnerMember.cleanWith, hb]

def memberW : PartnerMember :=
  { pk := some 4, partner := 1, user := some 8, name := ("N"), employee_id := none,
    work_email := some ("n@x.ru"), work_phone := none, role := ("admin"),
    can_manage_members := false, can_view_finance := false, is_active := true }

/-- Claim C9 witness: a concrete admin member with both flags false gets both
flags set by `clean`. -/
theorem member_clean_grants_admin_permissions_witness :
    (PartnerMember.cleanWith pW memberW).fst.can_manage_members = true ∧
    (PartnerMember.cleanWith pW memberW).fst.can_view_finance = true :=
  member_clean_grants_admin_permissions pW memberW (Or.inr rfl)

/-! ## Claim C5 -/

/-- Claim C5: for a pickup point whose partner is not validated,
`PickupPoint.clean` raises a ValidationError whose dictionary contains the key
`partner`, and `validate_partner_pickup_point_access` returns false for that
partner whatever the user. -/
theorem pickup_point_requires_validated_partner (stored : List PickupPoint)
    (pp : PickupPoint) (P : Partner) (u : Option User)
    (hp : pp.partner = some P) (hv : P.validated = false) :
    (∃ es, PickupPoint.clean stored pp = Except.error es ∧
       hasKey es ("partner") = true) ∧
    validate_partner_pickup_point_access u P = false := by
  constructor
  · have hkey : hasKey (PickupPoint.cleanErrors stored pp) ("partner") = true := by
      unfold PickupPoint.cleanErrors
      rw [hasKey_append, hasKey_append, hasKey_append, hasKey_append]
      have : hasKey
          (match pp.partner with
            | some p =>
                if !p.validated then
                  [(("partner"), [("Нельзя создавать ПВЗ для партнера, который не прошёл проверку")])]
                else []
            | none => []) ("partner") = true := by
        rw [hp]
        simp [hv, hasKey]
      simp only [this, Bool.or_true, Bool.true_or]
    refine ⟨PickupPoint.cleanErrors stored pp, ?_, hkey⟩
    unfold PickupPoint.clean
    have hne : (PickupPoint.cleanErrors stored pp).isEmpty = false := by
      rcases hes : PickupPoint.cleanErrors stored pp with _ | ⟨a, tl⟩
      · rw [hes] at hkey; exact absurd hkey (by simp [hasKey])
      · rfl
    simp [hne]
  · unfold validate_partner_pickup_point_access
    rw [hv]
    split <;> simp

def partnerNotValidatedW : Partner :=
  { pk := some 2, owner := 5, name := ("Q"), email := some ("q@x.ru"), phone := none,
    inn := ("7700000001"), ogrn := ("1027700000001"), kpp := none, validated := false }

def ppW : PickupPoint :=
  { pk := none, partner := some partnerNotValidatedW, name := ("PVZ-1"),
    address := ("Street 1"), work_schedule := ("9-21"), phone := none, email := none,
    is_active := true }

/-- Claim C5 witness: concrete pickup point for a non-validated partner. -/
theorem pickup_point_requires_validated_partner_witness :
    (∃ es, PickupPoint.clean [] ppW = Except.error es ∧ hasKey es ("partner") = true) ∧
    validate_partner_pickup_point_access (some superW) partnerNotValidatedW = false :=
  pickup_point_requires_validated_partner [] ppW partnerNotValidatedW (some superW) rfl rfl

lemma hasKey_single_ne (b : Bool) (k k₁ : String) (msgs : List String)
    (hne : (k == k₁) = false) :
    hasKey (if b then [(k, msgs)] else []) k₁ = false := by
  cases b <;> simp [hasKey, hne]

lemma hasKey_single_eq (b : Bool) (k : String) (msgs : List String) :
    hasKey (if b then [(k, msgs)] else []) k = b := by
  cases b <;> simp [hasKey]

/-! ## Claim C7 -/

lemma inn_cond_iff (stored : List Partner) (p : Partner) (v : String)
    (field : Partner → String) (htr : optPkTruthy p.pk = true) :
    (v != "" && !((stored.filter (fun q => field q == v &&
        (if optPkTruthy p.pk then !(q.pk == p.pk) else true))).isEmpty)) = true ↔
      v ≠ "" ∧ ∃ q ∈ stored, q.pk ≠ p.pk ∧ field q = v := by
  simp only [htr, if_true]
  rw [Bool.and_eq_true, filter_not_isEmpty_iff]
  simp only [Bool.and_eq_true, bne_iff_ne, ne_eq, Bool.not_eq_true',
    beq_eq_false_iff_ne, beq_iff_eq]
  constructor
  · rintro ⟨h1, q, hq, hqi, hqp⟩
    exact ⟨h1, q, hq, hqp, hqi⟩
  · rintro ⟨h1, q, hq, hqp, hqi⟩
    exact ⟨h1, q, hq, hqi, hqp⟩

/-- Claim C7 (amended): for a stored partner (non-zero pk), `Partner.clean`
reports the key `inn` (resp. `ogrn`) iff the field is non-empty and some other
stored row with a different pk carries the same value; the duplicate check
skips an empty field value, and rows with the partner's own pk are excluded. -/
theorem partner_clean_uniqueness_spec (stored : List Partner) (p : Partner)
    (k : Nat) (hpk : p.pk = some k) (hk : k ≠ 0) :
    (hasKey (Partner.cleanErrors stored p) ("inn") = true ↔
      p.inn ≠ "" ∧ ∃ q ∈ stored, q.pk ≠ p.pk ∧ q.inn = p.inn) ∧
    (hasKey (Partner.cleanErrors stored p) ("ogrn") = true ↔
      p.ogrn ≠ "" ∧ ∃ q ∈ stored, q.pk ≠ p.pk ∧ q.ogrn = p.ogrn) := by
  have htr : optPkTruthy p.pk = true := by
    rw [hpk]
    simpa [optPkTruthy] using hk
  unfold Partner.cleanErrors
  rw [hasKey_append, hasKey_append, hasKey_append, hasKey_append]
  constructor
  · rw [hasKey_single_ne _ _ _ _ (by decide), hasKey_single_eq,
      hasKey_single_ne _ _ _ _ (by decide)]
    simp only [Bool.false_or, Bool.or_false]
    exact inn_cond_iff stored p p.inn (fun q => q.inn) htr
  · rw [hasKey_single_ne _ _ _ _ (by decide), hasKey_single_ne _ _ _ _ (by decide),
      hasKey_single_eq]
    simp only [Bool.false_or, Bool.or_false]
    exact inn_cond_iff stored p p.ogrn (fun q => q.ogrn) htr

def storedEmptyInnW : Partner :=
  { pk := some 1, owner := 3, name := ("A"), email := some ("a@x.ru"), phone := none,
    inn := (""), ogrn := ("1027700000002"), kpp := none, validated := false }

def pEmptyInnW : Partner :=
  { pk := some 2, owner := 4, name := ("B"), email := some ("b@x.ru"), phone := none,
    inn := (""), ogrn := ("1027700000003"), kpp := none, validated := false }

/-- Claim C7 counterexample: another stored partner (different pk) has the same
(empty) inn, yet `Partner.clean` raises nothing at all, because the duplicate
check is skipped for a falsy inn value. -/
theorem partner_clean_empty_inn_no_error :
    (∃ q ∈ [storedEmptyInnW], q.pk ≠ pEmptyInnW.pk ∧ q.inn = pEmptyInnW.inn) ∧
    Partner.clean [storedEmptyInnW] pEmptyInnW = Except.ok () := by
  constructor
  · exact ⟨storedEmptyInnW, by simp, by decide, rfl⟩
  · rfl

def storedInnDupW : Partner :=
  { pk := some 1, owner := 3, name := ("A"), email := some ("a@x.ru"), phone := none,
    inn := ("7700000005"), ogrn := ("1027700000002"), kpp := none, validated := false }

def pInnDupW : Partner :=
  { pk := some 2, owner := 4, name := ("B"), email := some ("b@x.ru"), phone := none,
    inn := ("7700000005"), ogrn := ("1027700000003"), kpp := none, validated := false }

/-- Claim C7 witness: a concrete non-empty duplicated inn is reported, and the
partner's own stored row alone does not trigger the duplicate report. -/
theorem partner_clean_uniqueness_spec_witness :
    hasKey (Partner.cleanErrors [storedInnDupW] pInnDupW) ("inn") = true ∧
    hasKey (Partner.cleanErrors [pInnDupW] pInnDupW) ("inn") = false := by
  constructor
  · exact (partner_clean_uniqueness_spec [storedInnDupW] pInnDupW 2 rfl (by decide)).1.mpr
      ⟨by decide, storedInnDupW, by simp, by decide, rfl⟩
  · have h := (partner_clean_uniqueness_spec [pInnDupW] pInnDupW 2 rfl (by decide)).1
    by_cases hkey : hasKey (Partner.cleanErrors [pInnDupW] pInnDupW) ("inn") = true
    · rcases (h.mp hkey).2 with ⟨q, hq, hne, _⟩
      simp only [List.mem_singleton] at hq
      exact absurd (congrArg Partner.pk hq) hne
    · simpa using hkey

/-! ## Claim C1 -/

/-- Claim C1 (amended): `PartnerApplication.approve`, `PartnerApplication.reject`,
`approve_partner_application` and `reject_partner_application` all raise when
the application's status is not `pending`, and via `approve`/`reject` a pending
application only becomes `approved`/`rejected`; the helper
`update_application_status`, however, writes any supplied status
unconditionally, so only these four guarded entry points enforce the
once-only transition. -/
theorem application_status_transition_guard (db : DB) (app : PartnerApplication)
    (admin : Nat) (reason userName : String) (now : Nat)
    (h : app.status ≠ "pending") :
    (∃ e, app.approve admin = Except.error e) ∧
    (∃ e, app.reject admin reason = Except.error e) ∧
    (∃ es, approve_partner_application db app admin userName now = Except.error es) ∧
    (∃ es, reject_partner_application db app admin reason now = Except.error es) := by
  have hb : (app.status != "pending") = true := bne_iff_ne.mpr h
  refine ⟨⟨("Заявка уже обработана."), ?_⟩, ⟨("Заявка уже обработана."), ?_⟩,
    ⟨[(("status"), [("Application must be in pending status")])], ?_⟩,
    ⟨[(("status"), [("Application must be in pending status")])], ?_⟩⟩
  · simp [PartnerApplication.approve, hb]
  · simp [PartnerApplication.reject, hb]
  · simp [approve_partner_application, hb]
  · simp [reject_partner_application, hb]

def appApprovedW : PartnerApplication :=
  { pk := some 1, user := 7, company_name := ("OOO A"), inn := ("7700000010"),
    ogrn := ("1027700000010"), contact_email := ("a@b.ru"), contact_phone := ("+7"),
    status := ("approved"), processed_by := some 9, processed_at := some 1,
    rejection_reason := none, partner := some 1 }

def dbAppW : DB :=
  { partners := [], members := [], applications := [appApprovedW],
    next_partner_pk := 2, next_member_pk := 2 }

/-- Claim C1 counterexample: `update_application_status` moves an already
approved stored application back to `pending` and persists that, raising no
error; so it is not true that no operation moves an application out of
`approved`. -/
theorem update_application_status_bypasses_guard :
    appApprovedW.status = "approved" ∧
    ((update_application_status dbAppW appApprovedW ("pending") 9 none 5).snd).status
      = "pending" ∧
    ((update_application_status dbAppW appApprovedW ("pending") 9 none 5).fst).applications
      = [{ appApprovedW with
            status := ("pending")
            processed_at := some 5
            processed_by := some 9 }] := by
  refine ⟨rfl, rfl, ?_⟩
  decide

/-- Claim C1 witness: every guarded operation errors out on the concrete
approved application. -/
theorem application_status_transition_guard_witness :
    (∃ e, appApprovedW.approve 9 = Except.error e) ∧
    (∃ e, appApprovedW.reject 9 ("no") = Except.error e) ∧
    (∃ es, approve_partner_application dbAppW appApprovedW 9 ("Ivan") 5 = Except.error es) ∧
    (∃ es, reject_partner_application dbAppW appApprovedW 9 ("no") 5 = Except.error es) :=
  application_status_transition_guard dbAppW appApprovedW 9 ("no") ("Ivan") 5 (by decide)

/-! ## Claim C4 -/

lemma foldl_qor_matches (partners : List Partner) (m : PartnerMember) :
    ∀ (l : List PartnerMember) (base : MemberQ),
      MemberQ.matches partners
          (l.foldl (fun q mm => MemberQ.qor q (MemberQ.partnerEq mm.partner)) base) m =
        (MemberQ.matches partners base m || l.any (fun mm => m.partner == mm.partner)) := by
  intro l
  induction l with
  | nil => intro base; simp
  | cons hd tl ih =>
      intro base
      rw [List.foldl_cons, ih]
      simp [MemberQ.matches, Bool.or_assoc]

lemma lookup_owner_iff (partners : List Partner) (pid uid : Nat) :
    (match lookupPartner partners pid with
      | some p => p.owner == uid
      | none => false) = true ↔
      ∃ p, lookupPartner partners pid = some p ∧ p.owner = uid := by
  cases hl : lookupPartner partners pid <;> simp [hl]

/-- Claim C4: for an authenticated non-superuser, `PartnerMember.objects.for_user`
returns exactly the member rows of partners the user owns, the user's own
membership rows, and every member of a partner where the user holds an active
membership with `can_manage_members`; `None`/anonymous users get nothing and a
superuser gets everything. -/
theorem partner_member_filter_spec (partners : List Partner)
    (members : List PartnerMember) (u : User) :
    (membersForUser partners members none = []) ∧
    (u.is_authenticated = false → membersForUser partners members (some u) = []) ∧
    (u.is_authenticated = true → u.is_superuser = true →
      membersForUser partners members (some u) = members) ∧
    (u.is_authenticated = true → u.is_superuser = false →
      ∀ m, m ∈ membersForUser partners members (some u) ↔
        m ∈ members ∧
          ((∃ p, lookupPartner partners m.partner = some p ∧ p.owner = u.id) ∨
           m.user = some u.id ∨
           (∃ mm ∈ members, mm.user = some u.id ∧ mm.can_manage_members = true ∧
              mm.is_active = true ∧ mm.partner = m.partner))) := by
  refine ⟨?_, fun ha => ?_, fun ha hs => ?_, fun ha hs m => ?_⟩
  · simp [membersForUser, get_partner_member_filter_for_user, List.filter_eq_nil_iff,
      memberQ_pkIn_nil_matches]
  · simp [membersForUser, get_partner_member_filter_for_user, ha, List.filter_eq_nil_iff,
      memberQ_pkIn_nil_matches]
  · simp [membersForUser, get_partner_member_filter_for_user, ha, hs]
  · have hq : get_partner_member_filter_for_user members (some u) =
        some ((members.filter
            (fun mm => mm.user == some u.id && mm.can_manage_members && mm.is_active)).foldl
          (fun q mm => MemberQ.qor q (MemberQ.partnerEq mm.partner))
          (MemberQ.qor (MemberQ.partnerOwnerEq u.id) (MemberQ.userEq u.id))) := by
      simp [get_partner_member_filter_for_user, ha, hs]
    simp only [membersForUser, hq]
    rw [List.mem_filter]
    apply and_congr_right
    intro hm
    rw [foldl_qor_matches]
    simp only [MemberQ.matches, Bool.or_eq_true, lookup_owner_iff, List.any_eq_true,
      List.mem_filter, Bool.and_eq_true, beq_iff_eq]
    constructor
    · rintro ((h1 | h2) | h3)
      · exact Or.inl h1
      · exact Or.inr (Or.inl h2)
      · rcases h3 with ⟨mm, ⟨hmem, ⟨hu, hc⟩, hact⟩, hpe⟩
        exact Or.inr (Or.inr ⟨mm, hmem, hu, hc, hact, hpe.symm⟩)
    · rintro (h1 | h2 | h3)
      · exact Or.inl (Or.inl h1)
      · exact Or.inl (Or.inr h2)
      · rcases h3 with ⟨mm, hmem, hu, hc, hact, hpe⟩
        exact Or.inr ⟨mm, ⟨hmem, ⟨hu, hc⟩, hact⟩, hpe.symm⟩

def pOwnW : Partner :=
  { pk := some 1, owner := 5, name := ("P1"), email := some ("p@x.ru"), phone := none,
    inn := ("7700000020"), ogrn := ("1027700000020"), kpp := none, validated := true }

def memberOfOwnedW : PartnerMember :=
  { pk := some 1, partner := 1, user := some 8, name := ("E"), employee_id := none,
    work_email := some ("e@x.ru"), work_phone := none, role := ("employee"),
    can_manage_members := false, can_view_finance := false, is_active := true }

def uNormW : User := { id := 5, is_authenticated := true, is_superuser := false, is_staff := false }

/-- Claim C4 witness: the owner of a concrete partner sees its member row. -/
theorem partner_member_filter_spec_witness :
    memberOfOwnedW ∈ membersForUser [pOwnW] [memberOfOwnedW] (some uNormW) :=
  ((partner_member_filter_spec [pOwnW] [memberOfOwnedW] uNormW).2.2.2 rfl rfl
      memberOfOwnedW).mpr
    ⟨by simp, Or.inl ⟨pOwnW, by decide, rfl⟩⟩

/-! ## Claim C6 -/

/-- Claim C6: `create_partner` never lets an IntegrityError escape: with a valid
serializer input, a save failing with text containing a unique violation on inn
maps to a ValidationError keyed `inn`, on ogrn to one keyed `ogrn`, and any
other integrity error to `detail: database_integrity_error`; with an invalid
serializer input it raises the serializer's errors and the stored state is
unchanged. -/
theorem create_partner_integrity_mapping (db : DB) (d : PartnerData) (owner : Nat)
    (msg : String) :
    (partner_serializer_is_valid db.partners d = Except.ok () →
      ((strContains (strLower msg) ("unique") = true → strContains (strLower msg) ("inn") = true →
         create_partner_core db d (Except.error msg) =
           Except.error [(("inn"), [("partner_with_this_inn_already_exists")])]) ∧
       (strContains (strLower msg) ("unique") = true → strContains (strLower msg) ("inn") = false →
         strContains (strLower msg) ("ogrn") = true →
         create_partner_core db d (Except.error msg) =
           Except.error [(("ogrn"), [("partner_with_this_ogrn_already_exists")])]) ∧
       (strContains (strLower msg) ("unique") = false ∨
          (strContains (strLower msg) ("inn") = false ∧ strContains (strLower msg) ("ogrn") = false) →
         create_partner_core db d (Except.error msg) =
           Except.error [(("detail"), [("database_integrity_error")])]))) ∧
    (∀ es, partner_serializer_is_valid db.partners d = Except.error es →
       create_partner db d owner = Except.error es ∧
       create_partner_state db d owner = db) := by
  constructor
  · intro hv
    refine ⟨fun h1 h2 => ?_, fun h1 h2 h3 => ?_, fun h => ?_⟩
    · simp [create_partner_core, hv, integrity_to_validation, h1, h2]
    · simp [create_partner_core, hv, integrity_to_validation, h1, h2, h3]
    · rcases h with h | ⟨h1, h2⟩
      · simp [create_partner_core, hv, integrity_to_validation, h]
      · by_cases hu : strContains (strLower msg) ("unique") = true
        · simp [create_partner_core, hv, integrity_to_validation, hu, h1, h2]
        · simp [create_partner_core, hv, integrity_to_validation,
            Bool.eq_false_iff.mpr hu]
  · intro es hv
    have h1 : create_partner db d owner = Except.error es := by
      simp [create_partner, create_partner_core, hv]
    exact ⟨h1, by simp [create_partner_state, h1]⟩

def dataW : PartnerData :=
  { name := ("P"), inn := ("7700000030"), ogrn := ("1027700000030"),
    email := some ("w@x.ru"), phone := none }

def dbEmptyW : DB :=
  { partners := [], members := [], applications := [],
    next_partner_pk := 1, next_member_pk := 1 }

def msgInnW : String := ("UNIQUE constraint failed: partners_partner.inn")

/-- Claim C6 witness: a concrete inn-unique IntegrityError text is converted
into the inn-keyed ValidationError. -/
theorem create_partner_integrity_mapping_witness :
    create_partner_core dbEmptyW dataW (Except.error msgInnW) =
      Except.error [(("inn"), [("partner_with_this_inn_already_exists")])] :=
  ((create_partner_integrity_mapping dbEmptyW dataW 1 msgInnW).1 rfl).1
    (by decide) (by decide)

/-! ## Claim C2 -/

lemma create_partner_ok_shape {db : DB} {d : PartnerData} {owner : Nat}
    {db₁ : DB} {p : Partner}
    (h : create_partner db d owner = Except.ok (db₁, p)) :
    db₁ = { db with partners := db.partners ++ [p]
                    next_partner_pk := db.next_partner_pk + 1 } := by
  unfold create_partner create_partner_core at h
  cases hv : partner_serializer_is_valid db.partners d with
  | error es =>
      simp only [hv] at h
      exact Except.noConfusion h
  | ok u =>
      simp only [hv] at h
      cases hs : partnerDbSave db d owner with
      | error e =>
          simp only [hs] at h
          exact Except.noConfusion h
      | ok r =>
          obtain ⟨dbN, pN⟩ := r
          simp only [hs] at h
          injection h with h'
          injection h' with h1 h2
          simp only [partnerDbSave] at hs
          split at hs
          · exact Except.noConfusion hs
          · split at hs
            · exact Except.noConfusion hs
            · injection hs with hs'
              injection hs' with hs1 hs2
              rw [← h1, ← hs1, ← h2, ← hs2]

lemma memberDbSave_ok_shape {db : DB} {md : PartnerMember} {db₁ : DB}
    {saved : PartnerMember}
    (h : memberDbSave db md = Except.ok (db₁, saved)) :
    db₁ = { db with members := db.members ++ [saved]
                    next_member_pk := db.next_member_pk + 1 } ∧
    saved = { md with pk := some db.next_member_pk } := by
  simp only [memberDbSave] at h
  split at h
  · exact Except.noConfusion h
  · injection h with h'
    injection h' with h1 h2
    exact ⟨by rw [← h1, ← h2], h2.symm⟩

lemma cleanWith_fst_pk (po : Partner) (m : PartnerMember) :
    (PartnerMember.cleanWith po m).fst.pk = m.pk := by
  simp only [PartnerMember.cleanWith]
  split <;> rfl

lemma cleanWith_fst_partner (po : Partner) (m : PartnerMember) :
    (PartnerMember.cleanWith po m).fst.partner = m.partner := by
  simp only [PartnerMember.cleanWith]
  split <;> rfl

lemma cleanWith_fst_role (po : Partner) (m : PartnerMember) :
    (PartnerMember.cleanWith po m).fst.role = m.role := by
  simp only [PartnerMember.cleanWith]
  split <;> rfl

lemma cleanWith_fst_eq_update (po : Partner) (m : PartnerMember) :
    (PartnerMember.cleanWith po m).fst =
      { m with
          can_manage_members := (PartnerMember.cleanWith po m).fst.can_manage_members
          can_view_finance := (PartnerMember.cleanWith po m).fst.can_view_finance } := by
  simp only [PartnerMember.cleanWith]
  split <;> rfl

lemma create_initial_member_shape {db : DB} {po : Partner} {uid : Nat}
    {userName : String} {app : PartnerApplication} {db₂ : DB} {m : PartnerMember}
    (h : create_initial_partner_member db po uid userName app = Except.ok (db₂, m)) :
    db₂.partners = db.partners ∧ db₂.applications = db.applications ∧
    m ∈ db₂.members ∧ m.role = "director" ∧ m.partner = po.pk.getD 0 := by
  unfold create_initial_partner_member at h
  cases hv : member_serializer_is_valid po (initialMemberData po uid userName app) with
  | error es =>
      simp only [hv] at h
      exact Except.noConfusion h
  | ok u =>
      simp only [hv] at h
      cases hs : memberDbSave db (initialMemberData po uid userName app) with
      | error e =>
          simp only [hs] at h
          exact Except.noConfusion h
      | ok r =>
          obtain ⟨dbS, saved⟩ := r
          simp only [hs] at h
          obtain ⟨hdbS, hsaved⟩ := memberDbSave_ok_shape hs
          split at h
          · exact Except.noConfusion h
          · injection h with h'
            injection h' with hdb hm
            subst hdb hm
            refine ⟨by rw [hdbS], by rw [hdbS], ?_, ?_, ?_⟩
            · show (PartnerMember.cleanWith po saved).fst ∈ _
              rw [hdbS]
              refine List.mem_map.mpr ⟨saved, by simp, ?_⟩
              rw [cleanWith_fst_pk po saved, beq_self_eq_true]
              simp only [if_true]
              exact (cleanWith_fst_eq_update po saved).symm
            · rw [cleanWith_fst_role po saved, hsaved]
              rfl
            · rw [cleanWith_fst_partner po saved, hsaved]
              rfl

lemma storeApplication_mem {apps : List PartnerApplication}
    {a b : PartnerApplication} (ha : a ∈ apps) (hpk : b.pk = a.pk) :
    b ∈ storeApplication apps b := by
  unfold storeApplication
  refine List.mem_map.mpr ⟨a, ha, ?_⟩
  rw [hpk, beq_self_eq_true]
  simp

lemma update_application_status_no_reason (db : DB) (app : PartnerApplication)
    (status : String) (pb : Nat) (now : Nat) :
    update_application_status db app status pb none now =
      ({ db with applications := storeApplication db.applications { app with status := status, processed_at := some now, processed_by := some pb } },
        { app with status := status, processed_at := some now, processed_by := some pb }) := rfl

/-- Claim C2: `approve_partner_application` is atomic: when it returns normally
the new partner, the new director membership, the application's `approved`
status and the application-to-partner link are all in the resulting stored
state; when any step raises, the stored state is unchanged. -/
theorem approve_application_atomic (db : DB) (app : PartnerApplication)
    (admin : Nat) (userName : String) (now : Nat)
    (hmem : app ∈ db.applications) :
    (∀ db₁ p m a,
        approve_partner_application db app admin userName now = Except.ok (db₁, p, m, a) →
        p ∈ db₁.partners ∧ m ∈ db₁.members ∧ a ∈ db₁.applications ∧
        a.status = "approved" ∧ a.partner = p.pk ∧ m.partner = p.pk.getD 0 ∧
        m.role = "director") ∧
    (∀ es, approve_partner_application db app admin userName now = Except.error es →
        approve_application_state db app admin userName now = db) := by
  constructor
  · intro db₁ p m a h
    unfold approve_partner_application at h
    split at h
    · exact Except.noConfusion h
    · cases hcp : create_partner_from_application db app with
      | error es =>
          simp only [hcp] at h
          exact Except.noConfusion h
      | ok r =>
          obtain ⟨dbA, partner⟩ := r
          simp only [hcp] at h
          unfold create_partner_from_application at hcp
          have hA := create_partner_ok_shape hcp
          cases hcm : create_initial_partner_member dbA partner app.user userName app with
          | error es =>
              simp only [hcm] at h
              exact Except.noConfusion h
          | ok r₂ =>
              obtain ⟨dbB, om⟩ := r₂
              simp only [hcm] at h
              obtain ⟨hBp, hBa, hBm, hBrole, hBpartner⟩ := create_initial_member_shape hcm
              rw [update_application_status_no_reason] at h
              injection h with h'
              injection h' with hdb h''
              injection h'' with hp h'''
              injection h''' with hm ha
              subst hdb hp hm ha
              refine ⟨?_, ?_, ?_, rfl, rfl, hBpartner, hBrole⟩
              · show partner ∈ dbB.partners
                rw [hBp, hA]
                simp
              · exact hBm
              · show _ ∈ storeApplication (storeApplication dbB.applications _) _
                have hmemB : app ∈ dbB.applications := by
                  rw [hBa, hA]
                  exact hmem
                exact storeApplication_mem (storeApplication_mem hmemB rfl) rfl
  · intro es h
    simp only [approve_application_state, h]

def appPendW : PartnerApplication :=
  { pk := some 1, user := 7, company_name := ("OOO Test"), inn := ("1234567890"),
    ogrn := ("1234567890123"), contact_email := ("a@b.ru"), contact_phone := ("+7"),
    status := ("pending"), processed_by := none, processed_at := none,
    rejection_reason := none, partner := none }

def dbPendW : DB :=
  { partners := [], members := [], applications := [appPendW],
    next_partner_pk := 1, next_member_pk := 1 }

def pResW : Partner :=
  { pk := some 1, owner := 7, name := ("OOO Test"), email := some ("a@b.ru"),
    phone := some ("+7"), inn := ("1234567890"), ogrn := ("1234567890123"),
    kpp := none, validated := false }

def mResW : PartnerMember :=
  { pk := some 1, partner := 1, user := some 7, name := ("Ivan"), employee_id := none,
    work_email := some ("a@b.ru"), work_phone := some ("+7"), role := ("director"),
    can_manage_members := true, can_view_finance := true, is_active := true }

def appResW : PartnerApplication :=
  { pk := some 1, user := 7, company_name := ("OOO Test"), inn := ("1234567890"),
    ogrn := ("1234567890123"), contact_email := ("a@b.ru"), contact_phone := ("+7"),
    status := ("approved"), processed_by := some 3, processed_at := some 100,
    rejection_reason := none, partner := some 1 }

def dbResW : DB :=
  { partners := [pResW], members := [mResW], applications := [appResW],
    next_partner_pk := 2, next_member_pk := 2 }

/-- Claim C2 witness: a concrete pending application is approved; the partner,
the director membership, the approved status and the link are all persisted. -/
theorem approve_application_atomic_witness :
    approve_partner_application dbPendW appPendW 3 ("Ivan") 100 =
      Except.ok (dbResW, pResW, mResW, appResW) ∧
    pResW ∈ dbResW.partners ∧ mResW ∈ dbResW.members ∧ appResW ∈ dbResW.applications ∧
    appResW.status = "approved" ∧ appResW.partner = pResW.pk :=
  have hok : approve_partner_application dbPendW appPendW 3 ("Ivan") 100 =
      Except.ok (dbResW, pResW, mResW, appResW) := rfl
  have hprops := (approve_application_atomic dbPendW appPendW 3 ("Ivan") 100
      (by simp [dbPendW])).1 dbResW pResW mResW appResW hok
  ⟨hok, hprops.1, hprops.2.1, hprops.2.2.1, hprops.2.2.2.1, hprops.2.2.2.2.1⟩

/-! ## Claim C10 -/

lemma append_ne_empty_left (s t : String) (hs : s ≠ "") : s ++ t ≠ "" := by
  intro h
  apply hs
  have hd : (s ++ t).data = ([] : List Char) := by rw [h]
  rw [String.data_append] at hd
  rcases List.append_eq_nil.mp hd with ⟨h1, _⟩
  cases s with
  | mk d =>
      cases h1
      rfl

lemma finishSend_spec (n : Notification) (env : NotifyEnv) (ch : String)
    (hem : n.error_message = none) :
    ((finishSend n env ch).status = "sent" ∨
      ((finishSend n env ch).status = "failed" ∧
        ∃ t, (finishSend n env ch).error_message = some t ∧ t ≠ "")) ∧
    ((finishSend n env ch).status = "sent" →
      env.send_result = true ∧
      (finishSend n env ch).sent_at = some env.now ∧
      (finishSend n env ch).error_message = none) ∧
    (finishSend n env ch).partner_id = n.partner_id ∧
    (finishSend n env ch).channel = n.channel ∧
    (finishSend n env ch).subject = n.subject ∧
    (finishSend n env ch).message = n.message := by
  unfold finishSend
  cases hsr : env.send_result with
  | true =>
      exact ⟨Or.inl rfl, fun _ => ⟨rfl, rfl, hem⟩, rfl, rfl, rfl, rfl⟩
  | false =>
      refine ⟨Or.inr ⟨rfl, ⟨(("Ошибка отправки через ") ++ ch), rfl,
        append_ne_empty_left ("Ошибка отправки через ") ch (by decide)⟩⟩,
        ?_, rfl, rfl, rfl, rfl⟩
      intro hst
      exact absurd (show ("failed" : String) = "sent" from hst) (by decide)

lemma fail_leaf {env : NotifyEnv} {n : Notification} {em : String}
    (hst : n.status = ("failed"))
    (hem : n.error_message = some em) (hne : em ≠ "") :
    (n.status = "sent" ∨
      (n.status = "failed" ∧ ∃ t, n.error_message = some t ∧ t ≠ "")) ∧
    (n.status = "sent" → env.send_result = true ∧
      n.sent_at = some env.now ∧ n.error_message = none) := by
  refine ⟨Or.inr ⟨hst, ⟨em, hem, hne⟩⟩, ?_⟩
  intro h
  rw [hst] at h
  exact absurd h (by decide)

/-- Claim C10: `send_to_partner` always creates and returns a notification
without propagating any exception: the status is `sent` with `sent_at` set
when the underlying channel send succeeds, and `failed` with a non-empty
`error_message` in every other case — send returning False, an unsupported
channel, a missing active TelegramConfig, or any other exception raised while
resolving the channel (the channel services themselves catch everything and
return a boolean). -/
theorem send_to_partner_total_spec (env : NotifyEnv) (pid : Nat)
    (ch s msg : String) :
    ((send_to_partner env pid ch s msg).partner_id = pid ∧
     (send_to_partner env pid ch s msg).channel = ch ∧
     (send_to_partner env pid ch s msg).subject = s ∧
     (send_to_partner env pid ch s msg).message = msg) ∧
    ((send_to_partner env pid ch s msg).status = "sent" ∨
      ((send_to_partner env pid ch s msg).status = "failed" ∧
       ∃ t, (send_to_partner env pid ch s msg).error_message = some t ∧ t ≠ "")) ∧
    ((send_to_partner env pid ch s msg).status = "sent" →
      env.send_result = true ∧
      (send_to_partner env pid ch s msg).sent_at = some env.now ∧
      (send_to_partner env pid ch s msg).error_message = none) := by
  unfold send_to_partner
  split
  · -- channel == telegram
    split
    · -- no active config
      exact ⟨⟨rfl, rfl, rfl, rfl⟩, fail_leaf rfl rfl (by decide)⟩
    · -- exactly one config: TelegramService construction, then the send
      dsimp only
      split
      · -- the config's own bot token is used
        split
        · -- empty token: service construction raises
          exact ⟨⟨rfl, rfl, rfl, rfl⟩, fail_leaf rfl rfl (by decide)⟩
        · -- send through the service
          have hf := finishSend_spec
            { partner_id := pid, channel := ch, subject := s, message := msg,
              status := ("pending"), sent_at := none, error_message := none } env ch rfl
          exact ⟨⟨hf.2.2.1, hf.2.2.2.1, hf.2.2.2.2.1, hf.2.2.2.2.2⟩, hf.1, hf.2.1⟩
      · -- the global settings token is used
        split
        · -- empty token: service construction raises
          exact ⟨⟨rfl, rfl, rfl, rfl⟩, fail_leaf rfl rfl (by decide)⟩
        · -- send through the service
          have hf := finishSend_spec
            { partner_id := pid, channel := ch, subject := s, message := msg,
              status := ("pending"), sent_at := none, error_message := none } env ch rfl
          exact ⟨⟨hf.2.2.1, hf.2.2.2.1, hf.2.2.2.2.1, hf.2.2.2.2.2⟩, hf.1, hf.2.1⟩
    · -- several configs
      exact ⟨⟨rfl, rfl, rfl, rfl⟩, fail_leaf rfl rfl (by decide)⟩
  · split
    · -- channel == email
      split
      · -- partner row absent
        exact ⟨⟨rfl, rfl, rfl, rfl⟩, fail_leaf rfl rfl (by decide)⟩
      · -- send through the email service
        have hf := finishSend_spec
          { partner_id := pid, channel := ch, subject := s, message := msg,
            status := ("pending"), sent_at := none, error_message := none } env ch rfl
        exact ⟨⟨hf.2.2.1, hf.2.2.2.1, hf.2.2.2.2.1, hf.2.2.2.2.2⟩, hf.1, hf.2.1⟩
    · -- unsupported channel
      exact ⟨⟨rfl, rfl, rfl, rfl⟩, fail_leaf rfl rfl
        (append_ne_empty_left ("Неподдерживаемый канал: ") ch (by decide))⟩

def pMailW : Partner :=
  { pk := some 1, owner := 5, name := ("P"), email := some ("p@x.ru"),
    phone := none, inn := ("7700000040"), ogrn := ("1027700000040"), kpp := none,
    validated := true }

def envOkW : NotifyEnv :=
  { telegram_configs := [], partners := [pMailW], settings_token := (""),
    send_result := true, now := 9 }

/-- Claim C10 witness: a concrete successful email send is recorded as `sent`
with `sent_at` set and no error message. -/
theorem send_to_partner_total_spec_witness :
    envOkW.send_result = true ∧
    (send_to_partner envOkW 1 ("email") ("s") ("m")).sent_at = some 9 ∧
    (send_to_partner envOkW 1 ("email") ("s") ("m")).error_message = none :=
  (send_to_partner_total_spec envOkW 1 ("email") ("s") ("m")).2.2 (by decide)
